import Mathlib

/-!
Shallow embedding of the `regiface` crate: fixed-width byte-array
serialization (`src/src/byte_array.rs`), register/command trait surface
(`src/regiface/src/lib.rs`, `src/regiface/src/command.rs`,
`src/regiface/src/register_id.rs`), error taxonomy
(`src/regiface/src/errors.rs`) and the I2C/SPI bus transaction functions
(`src/regiface/src/i2c.rs`, `src/regiface/src/spi.rs`), each in its
blocking and asynchronous flavor.

Machine bytes are `Nat` values below 256; byte buffers are `List Nat`.
An `async fn` whose only awaits are the device calls is embedded as the
same pure function as its blocking twin: suspension structure is not
observable in the embedding.  Each transaction function returns, next to
its `Except` result, the list of bus calls it issued, so that the traces
the spec talks about (ordering, atomicity, absence of calls) are
explicit values.
-/

namespace Regiface

/-- A wire buffer: the contents of a `[u8; N]` as a list of byte values. -/
abbrev Bytes := List Nat

/-- Big-endian byte decomposition of a machine integer, the embedding of
`uN::to_be_bytes`: `width` bytes, most significant first, each taken mod 256. -/
def toBeBytes : Nat → Nat → Bytes
  | 0, _ => []
  | n + 1, v => toBeBytes n (v / 256) ++ [v % 256]

/-- Big-endian recomposition, the embedding of `uN::from_be_bytes`. -/
def fromBeBytes : Bytes → Nat
  | [] => 0
  | b :: rest => b * 256 ^ rest.length + fromBeBytes rest

/-- The closed set of identifier widths: `u8`, `u16`, `u32`, `u64`, `u128`
(the only types carrying `RegisterId` / `Id` impls). -/
inductive IdWidth where
  | w8
  | w16
  | w32
  | w64
  | w128
deriving DecidableEq, Repr

/-- Byte length of each identifier width. -/
def IdWidth.len : IdWidth → Nat
  | .w8 => 1
  | .w16 => 2
  | .w32 => 4
  | .w64 => 8
  | .w128 => 16

/-- The embedding of `core::convert::Infallible`: an uninhabited error type. -/
abbrev Infallible := Empty

/-- The built-in `ToByteArray` impls for the five unsigned-integer widths
(`src/src/byte_array.rs` lines 120-163): `u8` returns `Ok([self])`, the wider
types return `Ok(self.to_be_bytes())`; the error type is `Infallible`. -/
def idToBytes (w : IdWidth) (v : Nat) : Except Infallible Bytes :=
  match w with
  | .w8 => .ok [v % 256]
  | .w16 => .ok (toBeBytes 2 v)
  | .w32 => .ok (toBeBytes 4 v)
  | .w64 => .ok (toBeBytes 8 v)
  | .w128 => .ok (toBeBytes 16 v)

/-- The built-in `FromByteArray` impls for the five unsigned-integer widths
(`src/src/byte_array.rs` lines 47-90): each is `Ok(Self::from_be_bytes(bytes))`
with error type `Infallible`. -/
def uintFromBytes (_ : IdWidth) (b : Bytes) : Except Infallible Nat :=
  .ok (fromBeBytes b)

/-- The embedding of `Result::unwrap` / `Result::unwrap_unchecked`:
`none` models the panic (resp. undefined behavior) branch. -/
def unwrapOpt {E A : Type} : Except E A → Option A
  | .ok a => some a
  | .error _ => none

/-- Extraction from a `Result` whose error type is `Infallible`: the error
branch is unreachable.  This is how the `.unwrap()` and `.unwrap_unchecked()`
calls on register-id serialization are embedded (their safety is a theorem,
stated separately). -/
def unwrapInfallible {A : Type} : Except Infallible A → A
  | .ok a => a
  | .error e => e.elim

/-- A `Register` impl together with the two overridable default methods of
`ReadableRegister` / `WritableRegister` (`src/regiface/src/lib.rs`):
`readable_id()` and `writeable_id()` each default to `id()`; an implementor
may override either with its own constant of the id type.  `none` means the
default body is in force. -/
structure RegisterDef where
  width : IdWidth
  id : Nat
  readableOverride : Option Nat := none
  writeableOverride : Option Nat := none

/-- `ReadableRegister::readable_id`: the override if present, else `id()`. -/
def RegisterDef.readable_id (r : RegisterDef) : Nat :=
  r.readableOverride.getD r.id

/-- `WritableRegister::writeable_id`: the override if present, else `id()`. -/
def RegisterDef.writeable_id (r : RegisterDef) : Nat :=
  r.writeableOverride.getD r.id

/-- A `ReadableRegister` impl for a value type `V`: the register descriptor,
the length of the associated `FromByteArray::Array`, and `from_bytes`. -/
structure ReadSpec (V DE : Type) where
  reg : RegisterDef
  arrayLen : Nat
  from_bytes : Bytes → Except DE V

/-- A `WritableRegister` impl for a value type `V`: the register descriptor
and `ToByteArray::to_bytes`, consuming the register value. -/
structure WriteSpec (V SE : Type) where
  reg : RegisterDef
  to_bytes : V → Except SE Bytes

/-- A `Command` impl (`src/regiface/src/command.rs`): an id (the trait has no
readable/writeable override methods, so there is a single canonical id), the
`invoking_parameters` extractor, the parameter serializer, and the response
deserializer with its associated array length. -/
structure CommandSpec (C P Resp SE DE : Type) where
  width : IdWidth
  id : Nat
  invoking_parameters : C → P
  param_to_bytes : P → Except SE Bytes
  respLen : Nat
  resp_from_bytes : Bytes → Except DE Resp

/-- `errors::ReadRegisterError` (`src/regiface/src/errors.rs`). -/
inductive ReadRegisterError (B D : Type) where
  | BusError (b : B)
  | DeserializationError (d : D)
deriving DecidableEq

/-- `errors::WriteRegisterError`. -/
inductive WriteRegisterError (B S : Type) where
  | BusError (b : B)
  | SerializationError (s : S)
deriving DecidableEq

/-- `errors::CommandError`. -/
inductive CommandError (B S D : Type) where
  | BusError (b : B)
  | SerializationError (s : S)
  | DeserializationError (d : D)
deriving DecidableEq

/-- One operation inside an `embedded_hal` I2C/SPI transaction: a write of
concrete bytes, or a read into a buffer of the given length. -/
inductive BusOp where
  | write (bytes : Bytes)
  | read (len : Nat)
deriving DecidableEq

/-- A call made to an I2C bus handle: `write_read` (one write followed by one
read within a single atomic operation) or `transaction` (an atomic ordered
sequence of operations), both carrying the device address. -/
inductive I2cCall (A : Type) where
  | writeRead (addr : A) (wr : Bytes) (readLen : Nat)
  | transaction (addr : A) (ops : List BusOp)
deriving DecidableEq

/-- A mock I2C device: decides for each call whether the bus fails and, on
success, which bytes the device drives into the call's read buffers
(concatenated in order). -/
structure I2cDevice (A E : Type) where
  respond : I2cCall A → Except E Bytes

/-- A mock SPI device: the bus handle only exposes `transaction`, so a call
is the atomic operation list itself. -/
structure SpiDevice (E : Type) where
  respond : List BusOp → Except E Bytes

/-- The read buffer after the device call: the device's bytes overwrite the
buffer from the front; any tail the device left untouched keeps the value the
buffer was initialized with. -/
def fillBuf (buf r : Bytes) : Bytes :=
  r.take buf.length ++ buf.drop r.length

namespace I2c.Async

/-- `i2c::async::read_register` (`src/regiface/src/i2c.rs` lines 47-67):
zero-fill the response array, serialize `readable_id()` (infallible, unwrap),
issue one `write_read`, then deserialize the buffer.  Returns the result and
the list of bus calls issued. -/
def read_register {A E V DE : Type} (device : I2cDevice A E) (device_addr : A)
    (spec : ReadSpec V DE) :
    Except (ReadRegisterError E DE) V × List (I2cCall A) :=
  let buf : Bytes := List.replicate spec.arrayLen 0
  let reg_id := unwrapInfallible (idToBytes spec.reg.width spec.reg.readable_id)
  let call := I2cCall.writeRead device_addr reg_id buf.length
  match device.respond call with
  | .error e => (.error (.BusError e), [call])
  | .ok r =>
    match spec.from_bytes (fillBuf buf r) with
    | .error d => (.error (.DeserializationError d), [call])
    | .ok v => (.ok v, [call])

/-- `i2c::async::write_register` (lines 100-127): serialize the payload
first (fail fast), serialize `writeable_id()`, then issue one atomic
transaction of the two writes. -/
def write_register {A E V SE : Type} (device : I2cDevice A E) (device_addr : A)
    (spec : WriteSpec V SE) (register : V) :
    Except (WriteRegisterError E SE) Unit × List (I2cCall A) :=
  match spec.to_bytes register with
  | .error s => (.error (.SerializationError s), [])
  | .ok buf =>
    let reg_id := unwrapInfallible (idToBytes spec.reg.width spec.reg.writeable_id)
    let call := I2cCall.transaction device_addr [.write reg_id, .write buf]
    match device.respond call with
    | .error e => (.error (.BusError e), [call])
    | .ok _ => (.ok (), [call])

/-- `i2c::async::invoke_command` (lines 172-211): serialize the invocation
parameters (fail fast), zero-fill the response array, serialize the command
id (infallible, `unwrap_unchecked`), issue one atomic transaction
[write id, write parameters, read response], then deserialize the response. -/
def invoke_command {A E C P Resp SE DE : Type} (device : I2cDevice A E)
    (device_addr : A) (spec : CommandSpec C P Resp SE DE) (cmd : C) :
    Except (CommandError E SE DE) Resp × List (I2cCall A) :=
  match spec.param_to_bytes (spec.invoking_parameters cmd) with
  | .error s => (.error (.SerializationError s), [])
  | .ok cmd_buf =>
    let resp_buf : Bytes := List.replicate spec.respLen 0
    let reg_id := unwrapInfallible (idToBytes spec.width spec.id)
    let call := I2cCall.transaction device_addr
      [.write reg_id, .write cmd_buf, .read resp_buf.length]
    match device.respond call with
    | .error e => (.error (.BusError e), [call])
    | .ok r =>
      match spec.resp_from_bytes (fillBuf resp_buf r) with
      | .error d => (.error (.DeserializationError d), [call])
      | .ok v => (.ok v, [call])

end I2c.Async

namespace I2c.Blocking

/-- `i2c::blocking::read_register` (lines 238-257): same body as the async
flavor, executed synchronously. -/
def read_register {A E V DE : Type} (device : I2cDevice A E) (device_addr : A)
    (spec : ReadSpec V DE) :
    Except (ReadRegisterError E DE) V × List (I2cCall A) :=
  let buf : Bytes := List.replicate spec.arrayLen 0
  let reg_id := unwrapInfallible (idToBytes spec.reg.width spec.reg.readable_id)
  let call := I2cCall.writeRead device_addr reg_id buf.length
  match device.respond call with
  | .error e => (.error (.BusError e), [call])
  | .ok r =>
    match spec.from_bytes (fillBuf buf r) with
    | .error d => (.error (.DeserializationError d), [call])
    | .ok v => (.ok v, [call])

/-- `i2c::blocking::write_register` (lines 280-306).  The `Operation` type it
names through the `embedded_hal_async` path is the re-exported
`embedded_hal::i2c::Operation`, so the transaction contents are the same. -/
def write_register {A E V SE : Type} (device : I2cDevice A E) (device_addr : A)
    (spec : WriteSpec V SE) (register : V) :
    Except (WriteRegisterError E SE) Unit × List (I2cCall A) :=
  match spec.to_bytes register with
  | .error s => (.error (.SerializationError s), [])
  | .ok buf =>
    let reg_id := unwrapInfallible (idToBytes spec.reg.width spec.reg.writeable_id)
    let call := I2cCall.transaction device_addr [.write reg_id, .write buf]
    match device.respond call with
    | .error e => (.error (.BusError e), [call])
    | .ok _ => (.ok (), [call])

/-- `i2c::blocking::invoke_command` (lines 336-374). -/
def invoke_command {A E C P Resp SE DE : Type} (device : I2cDevice A E)
    (device_addr : A) (spec : CommandSpec C P Resp SE DE) (cmd : C) :
    Except (CommandError E SE DE) Resp × List (I2cCall A) :=
  match spec.param_to_bytes (spec.invoking_parameters cmd) with
  | .error s => (.error (.SerializationError s), [])
  | .ok cmd_buf =>
    let resp_buf : Bytes := List.replicate spec.respLen 0
    let reg_id := unwrapInfallible (idToBytes spec.width spec.id)
    let call := I2cCall.transaction device_addr
      [.write reg_id, .write cmd_buf, .read resp_buf.length]
    match device.respond call with
    | .error e => (.error (.BusError e), [call])
    | .ok r =>
      match spec.resp_from_bytes (fillBuf resp_buf r) with
      | .error d => (.error (.DeserializationError d), [call])
      | .ok v => (.ok v, [call])

end I2c.Blocking

namespace Spi.Async

/-- `spi::async::read_register` (`src/regiface/src/spi.rs` lines 46-67):
one atomic transaction [write readable-id bytes, read response buffer], then
deserialize. -/
def read_register {E V DE : Type} (device : SpiDevice E) (spec : ReadSpec V DE) :
    Except (ReadRegisterError E DE) V × List (List BusOp) :=
  let buf : Bytes := List.replicate spec.arrayLen 0
  let reg_id := unwrapInfallible (idToBytes spec.reg.width spec.reg.readable_id)
  let ops : List BusOp := [.write reg_id, .read buf.length]
  match device.respond ops with
  | .error e => (.error (.BusError e), [ops])
  | .ok r =>
    match spec.from_bytes (fillBuf buf r) with
    | .error d => (.error (.DeserializationError d), [ops])
    | .ok v => (.ok v, [ops])

/-- `spi::async::write_register` (lines 99-121): serialize the payload first,
then one atomic transaction of [write writeable-id bytes, write payload]. -/
def write_register {E V SE : Type} (device : SpiDevice E)
    (spec : WriteSpec V SE) (register : V) :
    Except (WriteRegisterError E SE) Unit × List (List BusOp) :=
  match spec.to_bytes register with
  | .error s => (.error (.SerializationError s), [])
  | .ok buf =>
    let reg_id := unwrapInfallible (idToBytes spec.reg.width spec.reg.writeable_id)
    let ops : List BusOp := [.write reg_id, .write buf]
    match device.respond ops with
    | .error e => (.error (.BusError e), [ops])
    | .ok _ => (.ok (), [ops])

/-- `spi::async::invoke_command` (lines 165-199). -/
def invoke_command {E C P Resp SE DE : Type} (device : SpiDevice E)
    (spec : CommandSpec C P Resp SE DE) (cmd : C) :
    Except (CommandError E SE DE) Resp × List (List BusOp) :=
  match spec.param_to_bytes (spec.invoking_parameters cmd) with
  | .error s => (.error (.SerializationError s), [])
  | .ok cmd_buf =>
    let resp_buf : Bytes := List.replicate spec.respLen 0
    let reg_id := unwrapInfallible (idToBytes spec.width spec.id)
    let ops : List BusOp := [.write reg_id, .write cmd_buf, .read resp_buf.length]
    match device.respond ops with
    | .error e => (.error (.BusError e), [ops])
    | .ok r =>
      match spec.resp_from_bytes (fillBuf resp_buf r) with
      | .error d => (.error (.DeserializationError d), [ops])
      | .ok v => (.ok v, [ops])

end Spi.Async

namespace Spi.Blocking

/-- `spi::blocking::read_register` (lines 226-244); the id unwrap is
`unwrap_unchecked` here, `unwrap` in the async flavor — both are embedded as
`unwrapInfallible`. -/
def read_register {E V DE : Type} (device : SpiDevice E) (spec : ReadSpec V DE) :
    Except (ReadRegisterError E DE) V × List (List BusOp) :=
  let buf : Bytes := List.replicate spec.arrayLen 0
  let reg_id := unwrapInfallible (idToBytes spec.reg.width spec.reg.readable_id)
  let ops : List BusOp := [.write reg_id, .read buf.length]
  match device.respond ops with
  | .error e => (.error (.BusError e), [ops])
  | .ok r =>
    match spec.from_bytes (fillBuf buf r) with
    | .error d => (.error (.DeserializationError d), [ops])
    | .ok v => (.ok v, [ops])

/-- `spi::blocking::write_register` (lines 267-288). -/
def write_register {E V SE : Type} (device : SpiDevice E)
    (spec : WriteSpec V SE) (register : V) :
    Except (WriteRegisterError E SE) Unit × List (List BusOp) :=
  match spec.to_bytes register with
  | .error s => (.error (.SerializationError s), [])
  | .ok buf =>
    let reg_id := unwrapInfallible (idToBytes spec.reg.width spec.reg.writeable_id)
    let ops : List BusOp := [.write reg_id, .write buf]
    match device.respond ops with
    | .error e => (.error (.BusError e), [ops])
    | .ok _ => (.ok (), [ops])

/-- `spi::blocking::invoke_command` (lines 318-351). -/
def invoke_command {E C P Resp SE DE : Type} (device : SpiDevice E)
    (spec : CommandSpec C P Resp SE DE) (cmd : C) :
    Except (CommandError E SE DE) Resp × List (List BusOp) :=
  match spec.param_to_bytes (spec.invoking_parameters cmd) with
  | .error s => (.error (.SerializationError s), [])
  | .ok cmd_buf =>
    let resp_buf : Bytes := List.replicate spec.respLen 0
    let reg_id := unwrapInfallible (idToBytes spec.width spec.id)
    let ops : List BusOp := [.write reg_id, .write cmd_buf, .read resp_buf.length]
    match device.respond ops with
    | .error e => (.error (.BusError e), [ops])
    | .ok r =>
      match spec.resp_from_bytes (fillBuf resp_buf r) with
      | .error d => (.error (.DeserializationError d), [ops])
      | .ok v => (.ok v, [ops])

end Spi.Blocking

/-- `command::NoParameters` (`src/regiface/src/command.rs` lines 68-74):
a zero-field marker type. -/
structure NoParameters where
deriving DecidableEq

/-- Modelled from the spec: the `ToByteArray` impl for `NoParameters` is not
under `src/` (only the struct declaration is).  Per the spec, "a
`NoParameters` value serializes to a zero-length payload", infallibly. -/
def NoParameters.to_bytes (_ : NoParameters) : Except Infallible Bytes :=
  .ok []

/-- Modelled from the spec: the `FromByteArray` impl for `NoParameters` is
not under `src/`.  Per the spec, `NoParameters` "is accepted as both
command-parameter and response type": deserialization from the zero-length
array always succeeds with the marker value. -/
def NoParameters.from_bytes (_ : Bytes) : Except Infallible NoParameters :=
  .ok ⟨⟩

/-! Concrete fixtures: mock devices and register/command impls used to
evaluate the transaction functions on the spec's end-to-end scenarios. -/

/-- A readable register with id `0x2A` (a `u8`) whose value is a big-endian
`u16` in a 2-byte array. -/
def demoReadSpec : ReadSpec Nat Infallible where
  reg := { width := .w8, id := 0x2A }
  arrayLen := 2
  from_bytes := uintFromBytes .w16

/-- A mock I2C device that answers every call by driving `[0x01, 0x02]`. -/
def demoI2cDev : I2cDevice Unit Unit where
  respond := fun _ => .ok [0x01, 0x02]

/-- A mock SPI device that answers every transaction with `[0x01, 0x02]`. -/
def demoSpiDev : SpiDevice Unit where
  respond := fun _ => .ok [0x01, 0x02]

/-- A writable register with id `0x2A` serializing its `Nat` value to one
byte. -/
def demoWriteSpec : WriteSpec Nat String where
  reg := { width := .w8, id := 0x2A }
  to_bytes := fun v => .ok [v % 256]

/-- A writable register whose payload serialization always fails. -/
def failWriteSpec : WriteSpec Nat String where
  reg := { width := .w8, id := 0x2A }
  to_bytes := fun _ => .error "encode failed"

/-- A command with id `0xF0`, no invocation parameters, and a 1-byte
response decoded as a `u8`. -/
def demoCmdSpec : CommandSpec Unit NoParameters Nat Infallible Infallible where
  width := .w8
  id := 0xF0
  invoking_parameters := fun _ => ⟨⟩
  param_to_bytes := NoParameters.to_bytes
  respLen := 1
  resp_from_bytes := uintFromBytes .w8

/-- A command whose parameter serialization always fails. -/
def failCmdSpec : CommandSpec Unit Unit Nat String Infallible where
  width := .w8
  id := 0xF0
  invoking_parameters := fun _ => ()
  param_to_bytes := fun _ => .error "encode failed"
  respLen := 1
  resp_from_bytes := uintFromBytes .w8

/-- A mock I2C device that answers every call by driving `[0x2B]`. -/
def demoCmdDev : I2cDevice Unit Unit where
  respond := fun _ => .ok [0x2B]

/-- A command using `NoParameters` both as its parameter type and as its
response type, with id `0x10`. -/
def noParamCmdSpec :
    CommandSpec Unit NoParameters NoParameters Infallible Infallible where
  width := .w8
  id := 0x10
  invoking_parameters := fun _ => ⟨⟩
  param_to_bytes := NoParameters.to_bytes
  respLen := 0
  resp_from_bytes := NoParameters.from_bytes

/-- A mock I2C device that succeeds with an empty read-back. -/
def demoEmptyDev : I2cDevice Unit Unit where
  respond := fun _ => .ok []

/-! ### Support lemmas -/

theorem toBeBytes_length (n v : Nat) : (toBeBytes n v).length = n := by
  induction n generalizing v with
  | zero => rfl
  | succ n ih => simp [toBeBytes, ih]

theorem fromBeBytes_append_singleton (xs : Bytes) (b : Nat) :
    fromBeBytes (xs ++ [b]) = 256 * fromBeBytes xs + b := by
  induction xs with
  | nil => simp [fromBeBytes]
  | cons x xs ih =>
    show x * 256 ^ (xs ++ [b]).length + fromBeBytes (xs ++ [b]) =
      256 * (x * 256 ^ xs.length + fromBeBytes xs) + b
    rw [ih, List.length_append, List.length_singleton, pow_succ]
    ring

theorem fromBeBytes_toBeBytes (n v : Nat) (h : v < 256 ^ n) :
    fromBeBytes (toBeBytes n v) = v := by
  induction n generalizing v with
  | zero =>
    simp only [pow_zero, Nat.lt_one_iff] at h
    simp [toBeBytes, fromBeBytes, h]
  | succ n ih =>
    have hdiv : v / 256 < 256 ^ n := by
      rw [Nat.div_lt_iff_lt_mul (by norm_num : 0 < 256)]
      calc v < 256 ^ (n + 1) := h
        _ = 256 ^ n * 256 := by ring
    rw [toBeBytes, fromBeBytes_append_singleton, ih _ hdiv]
    omega

theorem idToBytes_eq_ok (w : IdWidth) (v : Nat) :
    idToBytes w v = .ok (toBeBytes w.len v) := by
  cases w <;> rfl

theorem unwrapInfallible_idToBytes (w : IdWidth) (v : Nat) :
    unwrapInfallible (idToBytes w v) = toBeBytes w.len v := by
  rw [idToBytes_eq_ok]; rfl

/-! ### Behavior of the I2C transaction functions (async flavor; the
blocking flavor is definitionally the same function) -/

theorem i2cRead_trace {A E V DE : Type} (device : I2cDevice A E) (addr : A)
    (spec : ReadSpec V DE) :
    (I2c.Async.read_register device addr spec).2 =
      [I2cCall.writeRead addr (toBeBytes spec.reg.width.len spec.reg.readable_id)
        spec.arrayLen] := by
  unfold I2c.Async.read_register
  simp only [unwrapInfallible_idToBytes, List.length_replicate]
  split
  · rfl
  · split <;> rfl

theorem i2cRead_busError {A E V DE : Type} (device : I2cDevice A E) (addr : A)
    (spec : ReadSpec V DE) (e : E)
    (h : device.respond (I2cCall.writeRead addr
        (toBeBytes spec.reg.width.len spec.reg.readable_id) spec.arrayLen) = .error e) :
    (I2c.Async.read_register device addr spec).1 = .error (.BusError e) := by
  unfold I2c.Async.read_register
  simp only [unwrapInfallible_idToBytes, List.length_replicate, h]

theorem i2cRead_ok {A E V DE : Type} (device : I2cDevice A E) (addr : A)
    (spec : ReadSpec V DE) (r : Bytes)
    (h : device.respond (I2cCall.writeRead addr
        (toBeBytes spec.reg.width.len spec.reg.readable_id) spec.arrayLen) = .ok r) :
    (I2c.Async.read_register device addr spec).1 =
      (spec.from_bytes (fillBuf (List.replicate spec.arrayLen 0) r)).mapError
        ReadRegisterError.DeserializationError := by
  unfold I2c.Async.read_register
  simp only [unwrapInfallible_idToBytes, List.length_replicate, h]
  cases hf : spec.from_bytes (fillBuf (List.replicate spec.arrayLen 0) r) <;>
    simp [Except.mapError]

theorem i2cWrite_serFail {A E V SE : Type} (device : I2cDevice A E) (addr : A)
    (spec : WriteSpec V SE) (register : V) (s : SE)
    (h : spec.to_bytes register = .error s) :
    I2c.Async.write_register device addr spec register =
      (.error (.SerializationError s), []) := by
  unfold I2c.Async.write_register
  simp only [h]

theorem i2cWrite_okTrace {A E V SE : Type} (device : I2cDevice A E) (addr : A)
    (spec : WriteSpec V SE) (register : V) (buf : Bytes)
    (h : spec.to_bytes register = .ok buf) :
    (I2c.Async.write_register device addr spec register).2 =
      [I2cCall.transaction addr
        [.write (toBeBytes spec.reg.width.len spec.reg.writeable_id), .write buf]] := by
  unfold I2c.Async.write_register
  simp only [h, unwrapInfallible_idToBytes]
  split <;> rfl

theorem i2cWrite_okResult {A E V SE : Type} (device : I2cDevice A E) (addr : A)
    (spec : WriteSpec V SE) (register : V) (buf : Bytes)
    (h : spec.to_bytes register = .ok buf) :
    (I2c.Async.write_register device addr spec register).1 =
      ((device.respond (I2cCall.transaction addr
          [.write (toBeBytes spec.reg.width.len spec.reg.writeable_id),
            .write buf])).map (fun _ => ())).mapError
        WriteRegisterError.BusError := by
  unfold I2c.Async.write_register
  simp only [h, unwrapInfallible_idToBytes]
  cases hr : device.respond (I2cCall.transaction addr
      [.write (toBeBytes spec.reg.width.len spec.reg.writeable_id), .write buf]) <;>
    simp [hr, Except.mapError, Except.map]

theorem i2cInvoke_serFail {A E C P Resp SE DE : Type} (device : I2cDevice A E)
    (addr : A) (spec : CommandSpec C P Resp SE DE) (cmd : C) (s : SE)
    (h : spec.param_to_bytes (spec.invoking_parameters cmd) = .error s) :
    I2c.Async.invoke_command device addr spec cmd =
      (.error (.SerializationError s), []) := by
  unfold I2c.Async.invoke_command
  simp only [h]

theorem i2cInvoke_okTrace {A E C P Resp SE DE : Type} (device : I2cDevice A E)
    (addr : A) (spec : CommandSpec C P Resp SE DE) (cmd : C) (cmd_buf : Bytes)
    (h : spec.param_to_bytes (spec.invoking_parameters cmd) = .ok cmd_buf) :
    (I2c.Async.invoke_command device addr spec cmd).2 =
      [I2cCall.transaction addr
        [.write (toBeBytes spec.width.len spec.id), .write cmd_buf,
          .read spec.respLen]] := by
  unfold I2c.Async.invoke_command
  simp only [h, unwrapInfallible_idToBytes, List.length_replicate]
  split
  · rfl
  · split <;> rfl

theorem i2cInvoke_busError {A E C P Resp SE DE : Type} (device : I2cDevice A E)
    (addr : A) (spec : CommandSpec C P Resp SE DE) (cmd : C) (cmd_buf : Bytes)
    (e : E)
    (h : spec.param_to_bytes (spec.invoking_parameters cmd) = .ok cmd_buf)
    (hbus : device.respond (I2cCall.transaction addr
        [.write (toBeBytes spec.width.len spec.id), .write cmd_buf,
          .read spec.respLen]) = .error e) :
    (I2c.Async.invoke_command device addr spec cmd).1 = .error (.BusError e) := by
  unfold I2c.Async.invoke_command
  simp only [h, unwrapInfallible_idToBytes, List.length_replicate, hbus]

theorem i2cInvoke_ok {A E C P Resp SE DE : Type} (device : I2cDevice A E)
    (addr : A) (spec : CommandSpec C P Resp SE DE) (cmd : C) (cmd_buf r : Bytes)
    (h : spec.param_to_bytes (spec.invoking_parameters cmd) = .ok cmd_buf)
    (hbus : device.respond (I2cCall.transaction addr
        [.write (toBeBytes spec.width.len spec.id), .write cmd_buf,
          .read spec.respLen]) = .ok r) :
    (I2c.Async.invoke_command device addr spec cmd).1 =
      (spec.resp_from_bytes (fillBuf (List.replicate spec.respLen 0) r)).mapError
        CommandError.DeserializationError := by
  unfold I2c.Async.invoke_command
  simp only [h, unwrapInfallible_idToBytes, List.length_replicate, hbus]
  cases hf : spec.resp_from_bytes (fillBuf (List.replicate spec.respLen 0) r) <;>
    simp [Except.mapError]

/-! ### Behavior of the SPI transaction functions (async flavor; the
blocking flavor is definitionally the same function) -/

theorem spiRead_trace {E V DE : Type} (device : SpiDevice E)
    (spec : ReadSpec V DE) :
    (Spi.Async.read_register device spec).2 =
      [[BusOp.write (toBeBytes spec.reg.width.len spec.reg.readable_id),
        BusOp.read spec.arrayLen]] := by
  unfold Spi.Async.read_register
  simp only [unwrapInfallible_idToBytes, List.length_replicate]
  split
  · rfl
  · split <;> rfl

theorem spiRead_busError {E V DE : Type} (device : SpiDevice E)
    (spec : ReadSpec V DE) (e : E)
    (h : device.respond
        [BusOp.write (toBeBytes spec.reg.width.len spec.reg.readable_id),
          BusOp.read spec.arrayLen] = .error e) :
    (Spi.Async.read_register device spec).1 = .error (.BusError e) := by
  unfold Spi.Async.read_register
  simp only [unwrapInfallible_idToBytes, List.length_replicate, h]

theorem spiRead_ok {E V DE : Type} (device : SpiDevice E)
    (spec : ReadSpec V DE) (r : Bytes)
    (h : device.respond
        [BusOp.write (toBeBytes spec.reg.width.len spec.reg.readable_id),
          BusOp.read spec.arrayLen] = .ok r) :
    (Spi.Async.read_register device spec).1 =
      (spec.from_bytes (fillBuf (List.replicate spec.arrayLen 0) r)).mapError
        ReadRegisterError.DeserializationError := by
  unfold Spi.Async.read_register
  simp only [unwrapInfallible_idToBytes, List.length_replicate, h]
  cases hf : spec.from_bytes (fillBuf (List.replicate spec.arrayLen 0) r) <;>
    simp [Except.mapError]

theorem spiWrite_serFail {E V SE : Type} (device : SpiDevice E)
    (spec : WriteSpec V SE) (register : V) (s : SE)
    (h : spec.to_bytes register = .error s) :
    Spi.Async.write_register device spec register =
      (.error (.SerializationError s), []) := by
  unfold Spi.Async.write_register
  simp only [h]

theorem spiWrite_okTrace {E V SE : Type} (device : SpiDevice E)
    (spec : WriteSpec V SE) (register : V) (buf : Bytes)
    (h : spec.to_bytes register = .ok buf) :
    (Spi.Async.write_register device spec register).2 =
      [[BusOp.write (toBeBytes spec.reg.width.len spec.reg.writeable_id),
        BusOp.write buf]] := by
  unfold Spi.Async.write_register
  simp only [h, unwrapInfallible_idToBytes]
  split <;> rfl

theorem spiInvoke_serFail {E C P Resp SE DE : Type} (device : SpiDevice E)
    (spec : CommandSpec C P Resp SE DE) (cmd : C) (s : SE)
    (h : spec.param_to_bytes (spec.invoking_parameters cmd) = .error s) :
    Spi.Async.invoke_command device spec cmd =
      (.error (.SerializationError s), []) := by
  unfold Spi.Async.invoke_command
  simp only [h]

theorem spiInvoke_okTrace {E C P Resp SE DE : Type} (device : SpiDevice E)
    (spec : CommandSpec C P Resp SE DE) (cmd : C) (cmd_buf : Bytes)
    (h : spec.param_to_bytes (spec.invoking_parameters cmd) = .ok cmd_buf) :
    (Spi.Async.invoke_command device spec cmd).2 =
      [[BusOp.write (toBeBytes spec.width.len spec.id), BusOp.write cmd_buf,
        BusOp.read spec.respLen]] := by
  unfold Spi.Async.invoke_command
  simp only [h, unwrapInfallible_idToBytes, List.length_replicate]
  split
  · rfl
  · split <;> rfl

theorem spiInvoke_busError {E C P Resp SE DE : Type} (device : SpiDevice E)
    (spec : CommandSpec C P Resp SE DE) (cmd : C) (cmd_buf : Bytes) (e : E)
    (h : spec.param_to_bytes (spec.invoking_parameters cmd) = .ok cmd_buf)
    (hbus : device.respond
        [BusOp.write (toBeBytes spec.width.len spec.id), BusOp.write cmd_buf,
          BusOp.read spec.respLen] = .error e) :
    (Spi.Async.invoke_command device spec cmd).1 = .error (.BusError e) := by
  unfold Spi.Async.invoke_command
  simp only [h, unwrapInfallible_idToBytes, List.length_replicate, hbus]

theorem spiInvoke_ok {E C P Resp SE DE : Type} (device : SpiDevice E)
    (spec : CommandSpec C P Resp SE DE) (cmd : C) (cmd_buf r : Bytes)
    (h : spec.param_to_bytes (spec.invoking_parameters cmd) = .ok cmd_buf)
    (hbus : device.respond
        [BusOp.write (toBeBytes spec.width.len spec.id), BusOp.write cmd_buf,
          BusOp.read spec.respLen] = .ok r) :
    (Spi.Async.invoke_command device spec cmd).1 =
      (spec.resp_from_bytes (fillBuf (List.replicate spec.respLen 0) r)).mapError
        CommandError.DeserializationError := by
  unfold Spi.Async.invoke_command
  simp only [h, unwrapInfallible_idToBytes, List.length_replicate, hbus]
  cases hf : spec.resp_from_bytes (fillBuf (List.replicate spec.respLen 0) r) <;>
    simp [Except.mapError]

/-! ### The claims -/

/-- C5: for every value of each of the five unsigned-integer widths, the
built-in `ToByteArray` serialization is infallible and big-endian, and
decoding via the built-in `FromByteArray` impl after encoding yields the
original value. -/
theorem uint_byte_array_roundtrip (w : IdWidth) (v : Nat)
    (h : v < 256 ^ w.len) :
    idToBytes w v = .ok (toBeBytes w.len v) ∧
    (toBeBytes w.len v).length = w.len ∧
    uintFromBytes w (toBeBytes w.len v) = .ok v := by
  refine ⟨idToBytes_eq_ok w v, toBeBytes_length _ _, ?_⟩
  unfold uintFromBytes
  rw [fromBeBytes_toBeBytes _ _ h]

/-- Witness for C5: `0x1234` as a `u16` encodes to `[0x12, 0x34]` and
decodes back to `0x1234`. -/
theorem uint_byte_array_roundtrip_witness :
    (0x1234 : Nat) < 256 ^ IdWidth.w16.len ∧
    idToBytes .w16 0x1234 = .ok [0x12, 0x34] ∧
    uintFromBytes .w16 [0x12, 0x34] = .ok 0x1234 := by
  have h : (0x1234 : Nat) < 256 ^ IdWidth.w16.len := by decide
  obtain ⟨h1, -, h3⟩ := uint_byte_array_roundtrip .w16 0x1234 h
  have hb : toBeBytes IdWidth.w16.len 0x1234 = [0x12, 0x34] := by decide
  refine ⟨h, ?_, ?_⟩
  · rw [h1, hb]
  · rw [← hb]; exact h3

/-- C6: for each of the six operations (read_register, write_register,
invoke_command, over I2C and SPI), the blocking and asynchronous variants
issue the same bus calls and return the same result for the same device
behavior. -/
theorem async_blocking_equivalence (A E V SE DE C P Resp : Type)
    (idev : I2cDevice A E) (sdev : SpiDevice E) (addr : A)
    (rspec : ReadSpec V DE) (wspec : WriteSpec V SE) (register : V)
    (cspec : CommandSpec C P Resp SE DE) (cmd : C) :
    I2c.Async.read_register idev addr rspec =
        I2c.Blocking.read_register idev addr rspec ∧
    I2c.Async.write_register idev addr wspec register =
        I2c.Blocking.write_register idev addr wspec register ∧
    I2c.Async.invoke_command idev addr cspec cmd =
        I2c.Blocking.invoke_command idev addr cspec cmd ∧
    Spi.Async.read_register sdev rspec =
        Spi.Blocking.read_register sdev rspec ∧
    Spi.Async.write_register sdev wspec register =
        Spi.Blocking.write_register sdev wspec register ∧
    Spi.Async.invoke_command sdev cspec cmd =
        Spi.Blocking.invoke_command sdev cspec cmd :=
  ⟨rfl, rfl, rfl, rfl, rfl, rfl⟩

/-- Witness for C6: the equivalence evaluated at the concrete demo devices
and register/command impls. -/
theorem async_blocking_equivalence_witness :
    I2c.Async.read_register demoI2cDev () demoReadSpec =
        I2c.Blocking.read_register demoI2cDev () demoReadSpec ∧
    Spi.Async.invoke_command demoSpiDev failCmdSpec () =
        Spi.Blocking.invoke_command demoSpiDev failCmdSpec () :=
  ⟨(async_blocking_equivalence Unit Unit Nat String Infallible Unit Unit Nat
      demoI2cDev demoSpiDev () demoReadSpec demoWriteSpec 7 failCmdSpec ()).1,
    (async_blocking_equivalence Unit Unit Nat String Infallible Unit Unit Nat
      demoI2cDev demoSpiDev () demoReadSpec demoWriteSpec 7 failCmdSpec
      ()).2.2.2.2.2⟩

/-- C7: for every identifier in the closed width set {u8, u16, u32, u64,
u128}, conversion to its byte form never fails, so the `unwrap` /
`unwrap_unchecked` applied to id serialization (modelled by `unwrapOpt`,
whose `none` branch is the panic resp. undefined behavior) always lands in
the `some` branch, agreeing with the `unwrapInfallible` extraction the
transaction functions use. -/
theorem register_id_serialization_never_fails (w : IdWidth) (v : Nat) :
    idToBytes w v = .ok (toBeBytes w.len v) ∧
    unwrapOpt (idToBytes w v) = some (unwrapInfallible (idToBytes w v)) := by
  refine ⟨idToBytes_eq_ok w v, ?_⟩
  rw [idToBytes_eq_ok]
  rfl

/-- C1: `read_register` serializes `readable_id()` to its fixed-width byte
form, issues a single atomic bus call that writes the id bytes and reads
back exactly the length of the register's byte array into a freshly
zero-filled buffer, and deserializes only afterwards: a bus failure yields
`BusError` whatever the deserializer is (deserialization is never
attempted), and `DeserializationError` can only arise after the bus call
succeeded.  Stated for the I2C and SPI variants, async and blocking. -/
theorem read_register_protocol {A E V DE : Type} (device : I2cDevice A E)
    (sdev : SpiDevice E) (addr : A) (spec : ReadSpec V DE) :
    (toBeBytes spec.reg.width.len spec.reg.readable_id).length =
        spec.reg.width.len ∧
    (I2c.Async.read_register device addr spec).2 =
        [I2cCall.writeRead addr
          (toBeBytes spec.reg.width.len spec.reg.readable_id) spec.arrayLen] ∧
    (∀ e, device.respond (I2cCall.writeRead addr
          (toBeBytes spec.reg.width.len spec.reg.readable_id) spec.arrayLen) =
          .error e →
      ∀ f : Bytes → Except DE V,
        (I2c.Async.read_register device addr
            { spec with from_bytes := f }).1 = .error (.BusError e)) ∧
    (∀ r, device.respond (I2cCall.writeRead addr
          (toBeBytes spec.reg.width.len spec.reg.readable_id) spec.arrayLen) =
          .ok r →
      (I2c.Async.read_register device addr spec).1 =
        (spec.from_bytes (fillBuf (List.replicate spec.arrayLen 0) r)).mapError
          ReadRegisterError.DeserializationError) ∧
    (∀ d, (I2c.Async.read_register device addr spec).1 =
          .error (.DeserializationError d) →
      ∃ r, device.respond (I2cCall.writeRead addr
          (toBeBytes spec.reg.width.len spec.reg.readable_id) spec.arrayLen) =
        .ok r) ∧
    (I2c.Blocking.read_register device addr spec).2 =
        [I2cCall.writeRead addr
          (toBeBytes spec.reg.width.len spec.reg.readable_id) spec.arrayLen] ∧
    (∀ e, device.respond (I2cCall.writeRead addr
          (toBeBytes spec.reg.width.len spec.reg.readable_id) spec.arrayLen) =
          .error e →
      ∀ f : Bytes → Except DE V,
        (I2c.Blocking.read_register device addr
            { spec with from_bytes := f }).1 = .error (.BusError e)) ∧
    (∀ r, device.respond (I2cCall.writeRead addr
          (toBeBytes spec.reg.width.len spec.reg.readable_id) spec.arrayLen) =
          .ok r →
      (I2c.Blocking.read_register device addr spec).1 =
        (spec.from_bytes (fillBuf (List.replicate spec.arrayLen 0) r)).mapError
          ReadRegisterError.DeserializationError) ∧
    (Spi.Async.read_register sdev spec).2 =
        [[BusOp.write (toBeBytes spec.reg.width.len spec.reg.readable_id),
          BusOp.read spec.arrayLen]] ∧
    (∀ e, sdev.respond
          [BusOp.write (toBeBytes spec.reg.width.len spec.reg.readable_id),
            BusOp.read spec.arrayLen] = .error e →
      ∀ f : Bytes → Except DE V,
        (Spi.Async.read_register sdev { spec with from_bytes := f }).1 =
          .error (.BusError e)) ∧
    (∀ r, sdev.respond
          [BusOp.write (toBeBytes spec.reg.width.len spec.reg.readable_id),
            BusOp.read spec.arrayLen] = .ok r →
      (Spi.Async.read_register sdev spec).1 =
        (spec.from_bytes (fillBuf (List.replicate spec.arrayLen 0) r)).mapError
          ReadRegisterError.DeserializationError) ∧
    (∀ d, (Spi.Async.read_register sdev spec).1 =
          .error (.DeserializationError d) →
      ∃ r, sdev.respond
          [BusOp.write (toBeBytes spec.reg.width.len spec.reg.readable_id),
            BusOp.read spec.arrayLen] = .ok r) ∧
    (Spi.Blocking.read_register sdev spec).2 =
        [[BusOp.write (toBeBytes spec.reg.width.len spec.reg.readable_id),
          BusOp.read spec.arrayLen]] ∧
    (∀ r, sdev.respond
          [BusOp.write (toBeBytes spec.reg.width.len spec.reg.readable_id),
            BusOp.read spec.arrayLen] = .ok r →
      (Spi.Blocking.read_register sdev spec).1 =
        (spec.from_bytes (fillBuf (List.replicate spec.arrayLen 0) r)).mapError
          ReadRegisterError.DeserializationError) := by
  refine ⟨toBeBytes_length _ _, i2cRead_trace device addr spec,
    fun e h f => i2cRead_busError device addr _ e h,
    fun r h => i2cRead_ok device addr spec r h, ?_,
    i2cRead_trace device addr spec,
    fun e h f => i2cRead_busError device addr _ e h,
    fun r h => i2cRead_ok device addr spec r h,
    spiRead_trace sdev spec,
    fun e h f => spiRead_busError sdev _ e h,
    fun r h => spiRead_ok sdev spec r h, ?_,
    spiRead_trace sdev spec,
    fun r h => spiRead_ok sdev spec r h⟩
  · intro d hd
    cases hr : device.respond (I2cCall.writeRead addr
        (toBeBytes spec.reg.width.len spec.reg.readable_id) spec.arrayLen) with
    | error e =>
        have hb := i2cRead_busError device addr spec e hr
        rw [hb] at hd
        simp at hd
    | ok r => exact ⟨r, rfl⟩
  · intro d hd
    cases hr : sdev.respond
        [BusOp.write (toBeBytes spec.reg.width.len spec.reg.readable_id),
          BusOp.read spec.arrayLen] with
    | error e =>
        have hb := spiRead_busError sdev spec e hr
        rw [hb] at hd
        simp at hd
    | ok r => exact ⟨r, rfl⟩

/-- Witness for C1: the spec's end-to-end read scenario.  A mock I2C device
exposing register id `0x2A` and driving `[0x01, 0x02]` makes `read_register`
return the big-endian `u16` `0x0102`, having issued exactly one write-read
of `[0x2A]` with a 2-byte read buffer. -/
theorem read_register_protocol_witness :
    (I2c.Async.read_register demoI2cDev () demoReadSpec).1 = .ok 0x0102 ∧
    (I2c.Async.read_register demoI2cDev () demoReadSpec).2 =
      [I2cCall.writeRead () [0x2A] 2] := by
  obtain ⟨-, htrace, -, hok, -, -, -, -, -, -, -, -, -, -⟩ :=
    read_register_protocol demoI2cDev demoSpiDev () demoReadSpec
  refine ⟨?_, ?_⟩
  · rw [hok [0x01, 0x02] rfl]
    rfl
  · rw [htrace]
    decide

/-- Witness for C7: the `u8` id `0x2A` serializes without a panic branch. -/
theorem register_id_serialization_never_fails_witness :
    idToBytes .w8 0x2A = .ok (toBeBytes IdWidth.w8.len 0x2A) ∧
    unwrapOpt (idToBytes .w8 0x2A) =
      some (unwrapInfallible (idToBytes .w8 0x2A)) :=
  register_id_serialization_never_fails .w8 0x2A

/-- C8: `readable_id()` and `writeable_id()` default to `id()` when not
overridden, and overriding one of them leaves the other at `id()`. -/
theorem effective_id_defaults (w : IdWidth) (i r wo : Nat) :
    (RegisterDef.mk w i none none).readable_id = i ∧
    (RegisterDef.mk w i none none).writeable_id = i ∧
    (RegisterDef.mk w i (some r) none).readable_id = r ∧
    (RegisterDef.mk w i (some r) none).writeable_id = i ∧
    (RegisterDef.mk w i none (some wo)).writeable_id = wo ∧
    (RegisterDef.mk w i none (some wo)).readable_id = i := by
  simp [RegisterDef.readable_id, RegisterDef.writeable_id]

/-- Witness for C8: a register with id `0x2A` whose read id is overridden to
`0x6A` (the `| 0x40` convention) still writes with id `0x2A`. -/
theorem effective_id_defaults_witness :
    (RegisterDef.mk .w8 0x2A none none).readable_id = 0x2A ∧
    (RegisterDef.mk .w8 0x2A none none).writeable_id = 0x2A ∧
    (RegisterDef.mk .w8 0x2A (some 0x6A) none).readable_id = 0x6A ∧
    (RegisterDef.mk .w8 0x2A (some 0x6A) none).writeable_id = 0x2A ∧
    (RegisterDef.mk .w8 0x2A none (some 0x2B)).writeable_id = 0x2B ∧
    (RegisterDef.mk .w8 0x2A none (some 0x2B)).readable_id = 0x2A :=
  effective_id_defaults .w8 0x2A 0x6A 0x2B

/-- C2: for every writable register and every device, a `write_register`
call whose payload serialized successfully issues exactly one atomic bus
transaction of exactly two writes, in order: the `writeable_id()` bytes,
then the serialized payload.  Stated for I2C and SPI, async and blocking. -/
theorem write_register_single_transaction {A E V SE : Type}
    (device : I2cDevice A E) (sdev : SpiDevice E) (addr : A)
    (spec : WriteSpec V SE) (register : V) (buf : Bytes)
    (h : spec.to_bytes register = .ok buf) :
    (I2c.Async.write_register device addr spec register).2 =
        [I2cCall.transaction addr
          [.write (toBeBytes spec.reg.width.len spec.reg.writeable_id),
            .write buf]] ∧
    (I2c.Blocking.write_register device addr spec register).2 =
        [I2cCall.transaction addr
          [.write (toBeBytes spec.reg.width.len spec.reg.writeable_id),
            .write buf]] ∧
    (Spi.Async.write_register sdev spec register).2 =
        [[BusOp.write (toBeBytes spec.reg.width.len spec.reg.writeable_id),
          BusOp.write buf]] ∧
    (Spi.Blocking.write_register sdev spec register).2 =
        [[BusOp.write (toBeBytes spec.reg.width.len spec.reg.writeable_id),
          BusOp.write buf]] ∧
    (I2c.Async.write_register device addr spec register).1 =
        ((device.respond (I2cCall.transaction addr
            [.write (toBeBytes spec.reg.width.len spec.reg.writeable_id),
              .write buf])).map (fun _ => ())).mapError
          WriteRegisterError.BusError :=
  ⟨i2cWrite_okTrace device addr spec register buf h,
    i2cWrite_okTrace device addr spec register buf h,
    spiWrite_okTrace sdev spec register buf h,
    spiWrite_okTrace sdev spec register buf h,
    i2cWrite_okResult device addr spec register buf h⟩

/-- Witness for C2: the spec's end-to-end write scenario.  With id `0x2A`
and payload `[0x07]`, the single transaction is `write([0x2A])` followed by
`write([0x07])`. -/
theorem write_register_single_transaction_witness :
    demoWriteSpec.to_bytes 0x07 = .ok [0x07] ∧
    (I2c.Async.write_register demoEmptyDev () demoWriteSpec 0x07).2 =
      [I2cCall.transaction () [.write [0x2A], .write [0x07]]] ∧
    (I2c.Async.write_register demoEmptyDev () demoWriteSpec 0x07).1 =
      .ok () := by
  have hser : demoWriteSpec.to_bytes 0x07 = .ok [0x07] := rfl
  obtain ⟨h1, -, -, -, h5⟩ := write_register_single_transaction demoEmptyDev
    demoSpiDev () demoWriteSpec 0x07 [0x07] hser
  refine ⟨hser, ?_, ?_⟩
  · rw [h1]
    decide
  · rw [h5]
    rfl

/-- C3: `invoke_command` serializes the invocation parameters first (fail
fast: a serialization failure produces no bus call), then issues one atomic
bus transaction `[write id bytes, write parameter bytes, read
response-sized buffer]`, and only after a successful bus call deserializes
the response buffer — a bus failure yields `BusError` whatever the response
deserializer is. -/
theorem invoke_command_protocol {A E C P Resp SE DE : Type}
    (device : I2cDevice A E) (sdev : SpiDevice E) (addr : A)
    (spec : CommandSpec C P Resp SE DE) (cmd : C) :
    (∀ s, spec.param_to_bytes (spec.invoking_parameters cmd) = .error s →
      I2c.Async.invoke_command device addr spec cmd =
          (.error (.SerializationError s), []) ∧
      Spi.Async.invoke_command sdev spec cmd =
          (.error (.SerializationError s), [])) ∧
    (∀ cmd_buf, spec.param_to_bytes (spec.invoking_parameters cmd) =
        .ok cmd_buf →
      (I2c.Async.invoke_command device addr spec cmd).2 =
          [I2cCall.transaction addr
            [.write (toBeBytes spec.width.len spec.id), .write cmd_buf,
              .read spec.respLen]] ∧
      (I2c.Blocking.invoke_command device addr spec cmd).2 =
          [I2cCall.transaction addr
            [.write (toBeBytes spec.width.len spec.id), .write cmd_buf,
              .read spec.respLen]] ∧
      (Spi.Async.invoke_command sdev spec cmd).2 =
          [[BusOp.write (toBeBytes spec.width.len spec.id),
            BusOp.write cmd_buf, BusOp.read spec.respLen]] ∧
      (Spi.Blocking.invoke_command sdev spec cmd).2 =
          [[BusOp.write (toBeBytes spec.width.len spec.id),
            BusOp.write cmd_buf, BusOp.read spec.respLen]] ∧
      (∀ e, device.respond (I2cCall.transaction addr
            [.write (toBeBytes spec.width.len spec.id), .write cmd_buf,
              .read spec.respLen]) = .error e →
        ∀ g : Bytes → Except DE Resp,
          (I2c.Async.invoke_command device addr
              { spec with resp_from_bytes := g } cmd).1 =
            .error (.BusError e)) ∧
      (∀ r, device.respond (I2cCall.transaction addr
            [.write (toBeBytes spec.width.len spec.id), .write cmd_buf,
              .read spec.respLen]) = .ok r →
        (I2c.Async.invoke_command device addr spec cmd).1 =
          (spec.resp_from_bytes
              (fillBuf (List.replicate spec.respLen 0) r)).mapError
            CommandError.DeserializationError)) := by
  refine ⟨fun s hs => ⟨i2cInvoke_serFail device addr spec cmd s hs,
      spiInvoke_serFail sdev spec cmd s hs⟩,
    fun cmd_buf h => ⟨i2cInvoke_okTrace device addr spec cmd cmd_buf h,
      i2cInvoke_okTrace device addr spec cmd cmd_buf h,
      spiInvoke_okTrace sdev spec cmd cmd_buf h,
      spiInvoke_okTrace sdev spec cmd cmd_buf h,
      fun e hbus g => i2cInvoke_busError device addr _ cmd cmd_buf e h hbus,
      fun r hbus => i2cInvoke_ok device addr spec cmd cmd_buf r h hbus⟩⟩

/-- Witness for C3: the spec's end-to-end command scenario.  A command with
id `0xF0`, empty parameters and a 1-byte response, against a device driving
`[0x2B]`, issues the single transaction `write([0xF0])`, `write([])`,
`read(1)` and returns the decoded byte. -/
theorem invoke_command_protocol_witness :
    (I2c.Async.invoke_command demoCmdDev () demoCmdSpec ()).1 = .ok 0x2B ∧
    (I2c.Async.invoke_command demoCmdDev () demoCmdSpec ()).2 =
      [I2cCall.transaction () [.write [0xF0], .write [], .read 1]] := by
  obtain ⟨-, hok⟩ := invoke_command_protocol demoCmdDev demoSpiDev ()
    demoCmdSpec ()
  obtain ⟨ht, -, -, -, -, hres⟩ := hok [] rfl
  refine ⟨?_, ?_⟩
  · rw [hres [0x2B] rfl]
    rfl
  · rw [ht]
    decide

/-- C4: when payload serialization fails, `write_register` and
`invoke_command` return the `SerializationError` variant and issue no bus
call at all — the issued-call trace is empty — in every bus/flavor
variant. -/
theorem serialization_failfast {A E V SE C P Resp DE : Type}
    (device : I2cDevice A E) (sdev : SpiDevice E) (addr : A)
    (wspec : WriteSpec V SE) (register : V)
    (cspec : CommandSpec C P Resp SE DE) (cmd : C) (s : SE) :
    (wspec.to_bytes register = .error s →
      I2c.Async.write_register device addr wspec register =
          (.error (.SerializationError s), []) ∧
      I2c.Blocking.write_register device addr wspec register =
          (.error (.SerializationError s), []) ∧
      Spi.Async.write_register sdev wspec register =
          (.error (.SerializationError s), []) ∧
      Spi.Blocking.write_register sdev wspec register =
          (.error (.SerializationError s), [])) ∧
    (cspec.param_to_bytes (cspec.invoking_parameters cmd) = .error s →
      I2c.Async.invoke_command device addr cspec cmd =
          (.error (.SerializationError s), []) ∧
      I2c.Blocking.invoke_command device addr cspec cmd =
          (.error (.SerializationError s), []) ∧
      Spi.Async.invoke_command sdev cspec cmd =
          (.error (.SerializationError s), []) ∧
      Spi.Blocking.invoke_command sdev cspec cmd =
          (.error (.SerializationError s), [])) :=
  ⟨fun h => ⟨i2cWrite_serFail device addr wspec register s h,
      i2cWrite_serFail device addr wspec register s h,
      spiWrite_serFail sdev wspec register s h,
      spiWrite_serFail sdev wspec register s h⟩,
    fun h => ⟨i2cInvoke_serFail device addr cspec cmd s h,
      i2cInvoke_serFail device addr cspec cmd s h,
      spiInvoke_serFail sdev cspec cmd s h,
      spiInvoke_serFail sdev cspec cmd s h⟩⟩

/-- Witness for C4: with an always-failing payload encoder, the recorded
bus-call trace is empty and the result is the serialization error, for a
write over I2C and a command over SPI. -/
theorem serialization_failfast_witness :
    I2c.Async.write_register demoEmptyDev () failWriteSpec 0 =
      (.error (.SerializationError "encode failed"), []) ∧
    Spi.Blocking.invoke_command demoSpiDev failCmdSpec () =
      (.error (.SerializationError "encode failed"), []) := by
  obtain ⟨hw, hc⟩ := serialization_failfast demoEmptyDev demoSpiDev ()
    failWriteSpec 0 failCmdSpec () "encode failed"
  obtain ⟨h1, -, -, -⟩ := hw rfl
  obtain ⟨-, -, -, h2⟩ := hc rfl
  exact ⟨h1, h2⟩

/-- C9: a `NoParameters` value serializes to a zero-length payload, its
deserialization always succeeds, and the type is usable simultaneously as a
command's parameter type and response type: a command instantiated with
`NoParameters` on both sides completes an `invoke_command` transaction
end-to-end.  (The serialization impls are modelled from the spec; only the
struct declaration is under `src/`.) -/
theorem noparameters_zero_length :
    (∀ p : NoParameters, p.to_bytes = .ok ([] : Bytes)) ∧
    (∀ b : Bytes, NoParameters.from_bytes b = .ok ⟨⟩) ∧
    I2c.Async.invoke_command demoEmptyDev () noParamCmdSpec () =
      (.ok ⟨⟩, [I2cCall.transaction () [.write [0x10], .write [], .read 0]]) := by
  refine ⟨fun p => rfl, fun b => rfl, ?_⟩
  rfl

/-- C10: `invoke_command` transmits the canonical `C::id()` on the wire in
every bus/flavor variant: `CommandSpec` carries a single id (the `Command`
trait has no readable/writeable override methods), and the first operation
of the single issued transaction writes exactly that id's bytes. -/
theorem command_canonical_id {A E C P Resp SE DE : Type}
    (device : I2cDevice A E) (sdev : SpiDevice E) (addr : A)
    (spec : CommandSpec C P Resp SE DE) (cmd : C) (cmd_buf : Bytes)
    (h : spec.param_to_bytes (spec.invoking_parameters cmd) = .ok cmd_buf) :
    ((I2c.Async.invoke_command device addr spec cmd).2.map
        (fun c => match c with
          | I2cCall.writeRead _ wr _ => [BusOp.write wr]
          | I2cCall.transaction _ ops => ops.take 1)) =
      [[BusOp.write (toBeBytes spec.width.len spec.id)]] ∧
    ((I2c.Blocking.invoke_command device addr spec cmd).2.map
        (fun c => match c with
          | I2cCall.writeRead _ wr _ => [BusOp.write wr]
          | I2cCall.transaction _ ops => ops.take 1)) =
      [[BusOp.write (toBeBytes spec.width.len spec.id)]] ∧
    ((Spi.Async.invoke_command sdev spec cmd).2.map (fun ops => ops.take 1)) =
      [[BusOp.write (toBeBytes spec.width.len spec.id)]] ∧
    ((Spi.Blocking.invoke_command sdev spec cmd).2.map
        (fun ops => ops.take 1)) =
      [[BusOp.write (toBeBytes spec.width.len spec.id)]] := by
  refine ⟨?_, ?_, ?_, ?_⟩
  · rw [i2cInvoke_okTrace device addr spec cmd cmd_buf h]
    rfl
  · rw [show (I2c.Blocking.invoke_command device addr spec cmd).2 =
        (I2c.Async.invoke_command device addr spec cmd).2 from rfl,
      i2cInvoke_okTrace device addr spec cmd cmd_buf h]
    rfl
  · rw [spiInvoke_okTrace sdev spec cmd cmd_buf h]
    rfl
  · rw [show (Spi.Blocking.invoke_command sdev spec cmd).2 =
        (Spi.Async.invoke_command sdev spec cmd).2 from rfl,
      spiInvoke_okTrace sdev spec cmd cmd_buf h]
    rfl

/-- Witness for C10: the `NoParameters` command with id `0x10` puts
`write([0x10])` — the canonical id bytes — first in its only transaction,
over I2C and SPI, async and blocking. -/
theorem command_canonical_id_witness :
    ((I2c.Async.invoke_command demoEmptyDev () noParamCmdSpec ()).2.map
        (fun c => match c with
          | I2cCall.writeRead _ wr _ => [BusOp.write wr]
          | I2cCall.transaction _ ops => ops.take 1)) =
      [[BusOp.write [0x10]]] := by
  obtain ⟨h1, -, -, -⟩ := command_canonical_id demoEmptyDev demoSpiDev ()
    noParamCmdSpec () [] rfl
  exact h1.trans (by decide)

end Regiface
